import Mathlib

/-!
Verification development for the YCS battery simulation backend
(Backend/main.py, endpoint `run_simulation`).

The numeric arrays of the Python code are embedded over the rationals,
which model the exact arithmetic of the recurrence. The two unseeded
random sources of the code (`np.random.normal` for synthetic-profile noise
and `np.random.rand` for the state-of-health placeholder) are passed in as
explicit parameters `noise : ℕ → ℚ` and `randUnit : ℚ`, and `np.sin` is
passed in as an abstract function `sinQ : ℚ → ℚ`, so that every definition
stays executable. Fallible Python operations (the raised `HTTPException`,
`ZeroDivisionError` from division by a zero denominator, and the
`ValueError` of `np.linspace` on a negative sample count) are embedded
with `Except`.
-/

/-- Pydantic model `Cell` (main.py lines 23-27). -/
structure Cell where
  id : String
  name : String
  voltage : ℚ
  capacity : ℚ
  deriving DecidableEq, Repr

/-- Pydantic model `PackConfig` (main.py lines 29-33). -/
structure PackConfig where
  cell : Cell
  seriesCount : ℤ
  parallelCount : ℤ
  totalEnergy : ℚ
  deriving DecidableEq, Repr

/-- Pydantic model `DriveCycle` (main.py lines 35-38). -/
structure DriveCycle where
  id : String
  name : String
  duration : ℤ
  deriving DecidableEq, Repr

/-- Pydantic model `CsvRow` (main.py lines 40-43). -/
structure CsvRow where
  time_s : ℚ
  current_a : ℚ
  speed_kmh : Option ℚ
  deriving DecidableEq, Repr

/-- Pydantic model `DriveConfig` (main.py lines 45-50). -/
structure DriveConfig where
  type : String
  cycle : Option DriveCycle
  csvData : Option (List CsvRow)
  startingSoc : ℚ
  ambientTemp : ℚ
  deriving DecidableEq, Repr

/-- Pydantic model `ElectricalConfig` (main.py lines 52-53). -/
structure ElectricalConfig where
  model : String
  deriving DecidableEq, Repr

/-- Pydantic model `ThermalConfig` (main.py lines 55-56). -/
structure ThermalConfig where
  enabled : Bool
  deriving DecidableEq, Repr

/-- Pydantic model `LifeConfig` (main.py lines 58-59). -/
structure LifeConfig where
  enabled : Bool
  deriving DecidableEq, Repr

/-- Pydantic model `SimulationConfig` (main.py lines 61-64). -/
structure SimulationConfig where
  electrical : ElectricalConfig
  thermal : ThermalConfig
  life : LifeConfig
  deriving DecidableEq, Repr

/-- Pydantic model `SimulationRequest` (main.py lines 66-69). -/
structure SimulationRequest where
  packConfig : PackConfig
  driveConfig : DriveConfig
  simulationConfig : SimulationConfig
  deriving DecidableEq, Repr

/-- One element of the `time_series_data` list built at main.py lines
163-165: time, state of charge, voltage, current, temperature and
instantaneous power. -/
structure TimeSeriesPoint where
  time : ℚ
  soc : ℚ
  voltage : ℚ
  current : ℚ
  temperature : ℚ
  power : ℚ
  deriving DecidableEq, Repr

instance : Inhabited TimeSeriesPoint := ⟨⟨0, 0, 0, 0, 0, 0⟩⟩

/-- The `summary` dictionary of main.py lines 171-177. The Python code
formats each number as fixed-point text; the embedding keeps the numeric
value that is formatted. `stateOfHealth` is `None` when the life toggle is
off, embedded as `Option ℚ`. -/
structure Summary where
  finalSoc : ℚ
  totalEnergy : ℚ
  maxTemperature : ℚ
  efficiency : ℚ
  stateOfHealth : Option ℚ
  deriving DecidableEq, Repr

/-- The `results` dictionary of main.py lines 170-179. -/
structure SimResults where
  summary : Summary
  timeSeries : List TimeSeriesPoint
  deriving DecidableEq, Repr

/-- Exceptions that the Python code can raise inside the `try` block:
a `fastapi.HTTPException` (which carries a status code and a detail
string and is itself a subclass of `Exception`), a `ZeroDivisionError`
(division by a zero denominator), and the `ValueError` that
`np.linspace` raises on a negative sample count. -/
inductive PyError where
  | httpException (status : ℕ) (detail : String)
  | zeroDivisionError
  | valueError (msg : String)
  deriving DecidableEq, Repr

/-- The string form of an exception, as `str(e)` produces it at main.py
line 195; the starlette `HTTPException.__str__` is
`f"{status_code}: {detail}"`, and `float / 0` raises
`ZeroDivisionError("float division by zero")`. -/
def pyErrorMessage : PyError → String
  | PyError.httpException s d => toString s ++ ": " ++ d
  | PyError.zeroDivisionError => "float division by zero"
  | PyError.valueError m => m

/-- The pair of equal-length arrays produced by the data-source branch of
main.py lines 111-125: `time_points` and `current_profile`. -/
structure LoadProfile where
  time_points : List ℚ
  current_profile : List ℚ
  deriving DecidableEq, Repr

/-- `np.linspace start stop num` with the default `endpoint=True`:
`num` evenly spaced values from `start` to `stop`. For `num = 1` numpy
returns `[start]`; for `num ≥ 2` the step is `(stop - start)/(num - 1)`
and in exact rational arithmetic the last value equals `stop`. -/
def linspace (start stop : ℚ) (num : ℕ) : List ℚ :=
  if num = 0 then []
  else if num = 1 then [start]
  else (List.range num).map fun (k : ℕ) => start + (stop - start) * (k : ℚ) / ((num : ℚ) - 1)

/-- The Python `int(duration / 2)` of main.py line 118: true division
followed by truncation toward zero, which is `Int.tdiv`. -/
def syntheticPoints (duration : ℤ) : ℤ :=
  Int.tdiv duration 2

/-- The condition of main.py line 111: `drive.type == 'upload' and
drive.csvData`. Python truthiness makes both `None` and the empty list
falsy, so replay is selected only for a nonempty `csvData`. -/
def replaySelected (drive : DriveConfig) : Bool :=
  decide (drive.type = "upload") &&
    (match drive.csvData with
     | some rows => !rows.isEmpty
     | none => false)

/-- The data-source branch of main.py lines 111-125. Replay mode copies
the csv rows; synthetic mode builds `points = int(duration / 2)` samples
with `np.linspace(0, duration, points)` (a `ValueError` when `points` is
negative), `base_current = totalEnergy * 10 / duration` (a
`ZeroDivisionError` when `duration = 0`, raised after the linspace call),
per-sample noise and `20 * sin(time_points / 60)`; with neither source a
`HTTPException(400)` is raised. -/
def loadProfile (noise : ℕ → ℚ) (sinQ : ℚ → ℚ) (pack : PackConfig)
    (drive : DriveConfig) : Except PyError LoadProfile :=
  if replaySelected drive then
    let rows := drive.csvData.getD []
    Except.ok ⟨rows.map (fun r => r.time_s), rows.map (fun r => r.current_a)⟩
  else
    match drive.cycle with
    | some cyc =>
        let points : ℤ := syntheticPoints cyc.duration
        if points < 0 then
          Except.error (PyError.valueError "Number of samples must be non-negative.")
        else
          let n : ℕ := points.toNat
          let tps : List ℚ := linspace 0 (cyc.duration : ℚ) n
          if cyc.duration = 0 then Except.error PyError.zeroDivisionError
          else
            let base : ℚ := pack.totalEnergy * 10 / (cyc.duration : ℚ)
            Except.ok ⟨tps, (List.range n).map fun k =>
              base + noise k + 20 * sinQ (tps.getD k 0 / 60)⟩
    | none =>
        Except.error (PyError.httpException 400 "Invalid drive cycle configuration.")

/-- `total_capacity_ah = pack.cell.capacity * pack.parallelCount`
(main.py line 138). -/
def total_capacity_ah (pack : PackConfig) : ℚ :=
  pack.cell.capacity * (pack.parallelCount : ℚ)

/-- The `soc` array of the loop at main.py lines 131-144. The array is
created with `np.zeros`, index 0 is set to `startingSoc`, and the loop
body writes index i only when `dt > 0`; a skipped index therefore keeps
the zero fill. When the body runs, `soc[i] = max(0, soc[i-1] -
(current[i] * dt / 3600) / total_capacity_ah * 100)`. -/
def socAt (pack : PackConfig) (drive : DriveConfig) (tps cur : List ℚ) : ℕ → ℚ
  | 0 => drive.startingSoc
  | i + 1 =>
      let dt := tps.getD (i + 1) 0 - tps.getD i 0
      if dt ≤ 0 then 0
      else
        max 0 (socAt pack drive tps cur i -
          (cur.getD (i + 1) 0 * dt / 3600) / total_capacity_ah pack * 100)

/-- The `voltage` array of the loop at main.py lines 132-145: index 0 is
`cell.voltage * seriesCount`; a skipped index keeps the zero fill; when
the body runs, `voltage[i] = (cell.voltage * seriesCount) * (0.9 + 0.1 *
(soc[i] / 100)) - current[i] * 0.05`. -/
def voltageAt (pack : PackConfig) (drive : DriveConfig) (tps cur : List ℚ) : ℕ → ℚ
  | 0 => pack.cell.voltage * (pack.seriesCount : ℚ)
  | i + 1 =>
      let dt := tps.getD (i + 1) 0 - tps.getD i 0
      if dt ≤ 0 then 0
      else
        (pack.cell.voltage * (pack.seriesCount : ℚ)) *
            (0.9 + 0.1 * (socAt pack drive tps cur (i + 1) / 100)) -
          cur.getD (i + 1) 0 * 0.05

/-- The `temperature` array of the loop at main.py lines 133-152: index 0
is `ambientTemp`; a skipped index keeps the zero fill; when the body runs
and thermal is enabled, `temperature[i] = temperature[i-1] +
(current[i]^2 * 0.002 - (temperature[i-1] - ambientTemp) * 0.01) * dt /
100`; when the body runs and thermal is disabled, `temperature[i] =
ambientTemp`. -/
def temperatureAt (drive : DriveConfig) (sim : SimulationConfig)
    (tps cur : List ℚ) : ℕ → ℚ
  | 0 => drive.ambientTemp
  | i + 1 =>
      let dt := tps.getD (i + 1) 0 - tps.getD i 0
      if dt ≤ 0 then 0
      else if sim.thermal.enabled then
        let heat_gen := cur.getD (i + 1) 0 ^ 2 * 0.002
        let heat_dissipation :=
          (temperatureAt drive sim tps cur i - drive.ambientTemp) * 0.01
        temperatureAt drive sim tps cur i + (heat_gen - heat_dissipation) * dt / 100
      else drive.ambientTemp

/-- The condition under which the Python loop raises `ZeroDivisionError`:
`total_capacity_ah` is zero and some iteration reaches the `soc_delta`
division, that is some index `i ≥ 1` has `dt > 0` (main.py lines
140-143). The exception escapes the whole `try` block, so no partial
state is observable and the check can be made up front. -/
def capacityFault (pack : PackConfig) (tps : List ℚ) : Bool :=
  decide (total_capacity_ah pack = 0) &&
    (List.range tps.length).any fun i =>
      decide (1 ≤ i) && decide ((0 : ℚ) < tps.getD i 0 - tps.getD (i - 1) 0)

/-- One element of `time_series_data` (main.py lines 163-165), read off
from the state arrays at index i; `power = voltage * current / 1000`. -/
def mkPoint (pack : PackConfig) (drive : DriveConfig) (sim : SimulationConfig)
    (tps cur : List ℚ) (i : ℕ) : TimeSeriesPoint :=
  { time := tps.getD i 0
    soc := socAt pack drive tps cur i
    voltage := voltageAt pack drive tps cur i
    current := cur.getD i 0
    temperature := temperatureAt drive sim tps cur i
    power := voltageAt pack drive tps cur i * cur.getD i 0 / 1000 }

/-- The integration loop plus the zip of main.py lines 130-165: either a
`ZeroDivisionError` (zero total capacity reached by a running step) or
one `TimeSeriesPoint` per input index. -/
def stepSimulation (pack : PackConfig) (drive : DriveConfig)
    (sim : SimulationConfig) (tps cur : List ℚ) :
    Except PyError (List TimeSeriesPoint) :=
  if capacityFault pack tps then Except.error PyError.zeroDivisionError
  else Except.ok ((List.range tps.length).map (mkPoint pack drive sim tps cur))

/-- `final_soc = soc[-1] if len(soc) > 0 else 0` (main.py line 167). -/
def finalSocOf (pack : PackConfig) (drive : DriveConfig) (tps cur : List ℚ) : ℚ :=
  if tps.length = 0 then 0 else socAt pack drive tps cur (tps.length - 1)

/-- The temperature array as a list, in index order. -/
def temperatureList (drive : DriveConfig) (sim : SimulationConfig)
    (tps cur : List ℚ) : List ℚ :=
  (List.range tps.length).map (temperatureAt drive sim tps cur)

/-- `max_temp = np.max(temperature) if len(temperature) > 0 else 0`
(main.py line 168). -/
def maxTempOf (drive : DriveConfig) (sim : SimulationConfig)
    (tps cur : List ℚ) : ℚ :=
  match temperatureList drive sim tps cur with
  | [] => 0
  | t :: ts => ts.foldl max t

/-- The `summary` dictionary of main.py lines 171-177: `finalSoc`,
`totalEnergy = pack.totalEnergy * (startingSoc - finalSoc) / 100`,
`maxTemperature`, the constant efficiency 92.3, and `stateOfHealth =
99.5 - rand() * 0.5` when the life toggle is on, `None` otherwise. -/
def summaryOf (pack : PackConfig) (drive : DriveConfig)
    (sim : SimulationConfig) (randUnit : ℚ) (tps cur : List ℚ) : Summary :=
  { finalSoc := finalSocOf pack drive tps cur
    totalEnergy := pack.totalEnergy * (drive.startingSoc - finalSocOf pack drive tps cur) / 100
    maxTemperature := maxTempOf drive sim tps cur
    efficiency := 92.3
    stateOfHealth :=
      if sim.life.enabled then some (99.5 - randUnit * 0.5) else none }

/-- The body of the `try` block of main.py lines 100-191: choose the data
source, run the loop, and assemble the results dictionary. Any raised
exception propagates as `Except.error`. -/
def simulate_core (noise : ℕ → ℚ) (sinQ : ℚ → ℚ) (randUnit : ℚ)
    (req : SimulationRequest) : Except PyError SimResults :=
  match loadProfile noise sinQ req.packConfig req.driveConfig with
  | Except.error e => Except.error e
  | Except.ok p =>
      match stepSimulation req.packConfig req.driveConfig req.simulationConfig
          p.time_points p.current_profile with
      | Except.error e => Except.error e
      | Except.ok ts =>
          Except.ok
            ⟨summaryOf req.packConfig req.driveConfig req.simulationConfig
                randUnit p.time_points p.current_profile, ts⟩

/-- The whole endpoint `run_simulation` (main.py lines 88-195): the
`except Exception` clause at lines 193-195 catches every exception that
escapes the `try` block, including the `HTTPException(400)` raised at
line 125, and re-raises `HTTPException(500, str(e))`. -/
def run_simulation (noise : ℕ → ℚ) (sinQ : ℚ → ℚ) (randUnit : ℚ)
    (req : SimulationRequest) : Except PyError SimResults :=
  match simulate_core noise sinQ randUnit req with
  | Except.ok r => Except.ok r
  | Except.error e => Except.error (PyError.httpException 500 (pyErrorMessage e))

/-! ## General lemmas about the embedded pipeline -/

theorem mapRange_getD {α : Type} (f : ℕ → α) (d : α) (n i : ℕ) (hi : i < n) :
    ((List.range n).map f).getD i d = f i := by
  rw [List.getD_eq_getElem?_getD, List.getElem?_map, List.getElem?_range hi]
  rfl

theorem map_getD_of_lt {α β : Type} (f : α → β) (l : List α) (d : α) (db : β)
    (k : ℕ) (hk : k < l.length) : (l.map f).getD k db = f (l.getD k d) := by
  rw [List.getD_eq_getElem?_getD, List.getElem?_map, List.getElem?_eq_getElem hk,
    List.getD_eq_getElem?_getD, List.getElem?_eq_getElem hk]
  rfl

/-- The boundary wrapper succeeds exactly when the core does, with the same
value: the `except` clause only transforms failures. -/
theorem run_ok_iff (noise : ℕ → ℚ) (sinQ : ℚ → ℚ) (randUnit : ℚ)
    (req : SimulationRequest) (r : SimResults) :
    run_simulation noise sinQ randUnit req = Except.ok r ↔
      simulate_core noise sinQ randUnit req = Except.ok r := by
  unfold run_simulation
  cases h : simulate_core noise sinQ randUnit req <;> simp

theorem stepSimulation_ok_elim (pack : PackConfig) (drive : DriveConfig)
    (sim : SimulationConfig) (tps cur : List ℚ) (ts : List TimeSeriesPoint)
    (h : stepSimulation pack drive sim tps cur = Except.ok ts) :
    capacityFault pack tps = false ∧
      ts = (List.range tps.length).map (mkPoint pack drive sim tps cur) := by
  unfold stepSimulation at h
  by_cases hc : capacityFault pack tps = true
  · rw [if_pos hc] at h
    exact absurd h (by simp)
  · rw [if_neg hc] at h
    refine ⟨by simpa using hc, ?_⟩
    injection h with h2
    exact h2.symm

theorem core_ok_elim (noise : ℕ → ℚ) (sinQ : ℚ → ℚ) (randUnit : ℚ)
    (req : SimulationRequest) (r : SimResults)
    (h : simulate_core noise sinQ randUnit req = Except.ok r) :
    ∃ p, loadProfile noise sinQ req.packConfig req.driveConfig = Except.ok p ∧
      capacityFault req.packConfig p.time_points = false ∧
      r.summary = summaryOf req.packConfig req.driveConfig req.simulationConfig
          randUnit p.time_points p.current_profile ∧
      r.timeSeries = (List.range p.time_points.length).map
          (mkPoint req.packConfig req.driveConfig req.simulationConfig
            p.time_points p.current_profile) := by
  unfold simulate_core at h
  split at h
  next e heq => exact absurd h (by simp)
  next p heq =>
    split at h
    next e heq2 => exact absurd h (by simp)
    next ts heq2 =>
      obtain ⟨hc, hts⟩ := stepSimulation_ok_elim _ _ _ _ _ _ heq2
      injection h with h2
      exact ⟨p, heq, hc, by rw [← h2], by rw [← h2, hts]⟩

/-- Every successful run exposes the load profile and presents exactly one
`mkPoint` per profile index in its time series. -/
theorem run_ok_points (noise : ℕ → ℚ) (sinQ : ℚ → ℚ) (randUnit : ℚ)
    (req : SimulationRequest) (r : SimResults)
    (h : run_simulation noise sinQ randUnit req = Except.ok r) :
    ∃ tps cur,
      loadProfile noise sinQ req.packConfig req.driveConfig = Except.ok ⟨tps, cur⟩ ∧
      r.timeSeries.length = tps.length ∧
      ∀ i, i < tps.length → r.timeSeries.getD i default =
        mkPoint req.packConfig req.driveConfig req.simulationConfig tps cur i := by
  obtain ⟨p, hp, hc, hsum, hts⟩ :=
    core_ok_elim noise sinQ randUnit req r ((run_ok_iff _ _ _ _ _).mp h)
  refine ⟨p.time_points, p.current_profile, by exact hp, by rw [hts]; simp, ?_⟩
  intro i hi
  rw [hts]
  exact mapRange_getD _ _ _ _ hi

/-! ## Step equations for the state arrays -/

theorem socAt_succ (pack : PackConfig) (drive : DriveConfig) (tps cur : List ℚ) (i : ℕ) :
    socAt pack drive tps cur (i + 1) =
      if tps.getD (i + 1) 0 - tps.getD i 0 ≤ 0 then 0
      else
        max 0 (socAt pack drive tps cur i -
          (cur.getD (i + 1) 0 * (tps.getD (i + 1) 0 - tps.getD i 0) / 3600) /
            total_capacity_ah pack * 100) := rfl

theorem voltageAt_succ (pack : PackConfig) (drive : DriveConfig) (tps cur : List ℚ) (i : ℕ) :
    voltageAt pack drive tps cur (i + 1) =
      if tps.getD (i + 1) 0 - tps.getD i 0 ≤ 0 then 0
      else
        (pack.cell.voltage * (pack.seriesCount : ℚ)) *
            (0.9 + 0.1 * (socAt pack drive tps cur (i + 1) / 100)) -
          cur.getD (i + 1) 0 * 0.05 := rfl

theorem temperatureAt_succ (drive : DriveConfig) (sim : SimulationConfig)
    (tps cur : List ℚ) (i : ℕ) :
    temperatureAt drive sim tps cur (i + 1) =
      if tps.getD (i + 1) 0 - tps.getD i 0 ≤ 0 then 0
      else if sim.thermal.enabled then
        temperatureAt drive sim tps cur i +
          (cur.getD (i + 1) 0 ^ 2 * 0.002 -
              (temperatureAt drive sim tps cur i - drive.ambientTemp) * 0.01) *
            (tps.getD (i + 1) 0 - tps.getD i 0) / 100
      else drive.ambientTemp := rfl

/-! ## Lemmas about linspace and the synthetic sample count -/

theorem linspace_length (a b : ℚ) (n : ℕ) : (linspace a b n).length = n := by
  unfold linspace
  by_cases h0 : n = 0
  · simp [h0]
  · by_cases h1 : n = 1
    · simp [h0, h1]
    · simp [h0, h1]

theorem linspace_getD (a b : ℚ) (n k : ℕ) (h2 : 2 ≤ n) (hk : k < n) :
    (linspace a b n).getD k 0 = a + (b - a) * k / ((n : ℚ) - 1) := by
  unfold linspace
  rw [if_neg (by omega), if_neg (by omega)]
  exact mapRange_getD _ _ _ _ hk

theorem linspace_head (a b : ℚ) (n : ℕ) (h1 : 1 ≤ n) :
    (linspace a b n).getD 0 0 = a := by
  by_cases h2 : 2 ≤ n
  · rw [linspace_getD a b n 0 h2 (by omega)]
    norm_num
  · have hn : n = 1 := by omega
    subst hn
    rfl

theorem linspace_last (a b : ℚ) (n : ℕ) (h2 : 2 ≤ n) :
    (linspace a b n).getD (n - 1) 0 = b := by
  rw [linspace_getD a b n (n - 1) h2 (by omega)]
  have hc : ((n - 1 : ℕ) : ℚ) = (n : ℚ) - 1 := by
    push_cast [Nat.cast_sub (by omega : 1 ≤ n)]
    ring
  rw [hc]
  have hne : ((n : ℚ) - 1) ≠ 0 := by
    have : (2 : ℚ) ≤ (n : ℚ) := by exact_mod_cast h2
    intro hcontra
    nlinarith
  field_simp

theorem linspace_spacing (a b : ℚ) (n k : ℕ) (h2 : 2 ≤ n) (hk : k + 1 < n) :
    (linspace a b n).getD (k + 1) 0 - (linspace a b n).getD k 0 =
      (b - a) / ((n : ℚ) - 1) := by
  rw [linspace_getD a b n (k + 1) h2 hk, linspace_getD a b n k h2 (by omega)]
  push_cast
  ring

theorem syntheticPoints_nonneg (d : ℤ) (hd : 0 ≤ d) : 0 ≤ syntheticPoints d :=
  Int.tdiv_nonneg hd (by norm_num)

theorem syntheticPoints_toNat (d : ℤ) (hd : 0 ≤ d) :
    (syntheticPoints d).toNat = d.toNat / 2 := by
  obtain ⟨m, rfl⟩ := Int.eq_ofNat_of_zero_le hd
  rfl

/-! ## Concrete fixtures

Small concrete requests used by the counterexamples and the witnesses.
`nZero` and `sZero` instantiate the abstract noise and sine parameters
with the zero function. -/

def nZero : ℕ → ℚ := fun _ => 0

def sZero : ℚ → ℚ := fun _ => 0

def cellA : Cell := ⟨"c1", "CellA", 3.7, 5⟩

def packA : PackConfig := ⟨cellA, 10, 4, 10⟩

def simOff : SimulationConfig := ⟨⟨"rint"⟩, ⟨false⟩, ⟨false⟩⟩

def simLife : SimulationConfig := ⟨⟨"rint"⟩, ⟨false⟩, ⟨true⟩⟩

/-- Replay input whose two samples carry the same timestamp, so the step
from index 0 to index 1 has `dt = 0`. -/
def driveDup : DriveConfig := ⟨"upload", none, some [⟨0, 5, none⟩, ⟨0, 5, none⟩], 100, 25⟩

def reqDup : SimulationRequest := ⟨packA, driveDup, simOff⟩

/-- Replay input with strictly increasing timestamps. -/
def driveInc : DriveConfig := ⟨"upload", none, some [⟨0, 10, none⟩, ⟨1, 10, none⟩], 100, 25⟩

def reqInc : SimulationRequest := ⟨packA, driveInc, simOff⟩

def reqLife : SimulationRequest := ⟨packA, driveInc, simLife⟩

/-- A request that supplies neither csv samples nor a drive cycle. -/
def driveNoSource : DriveConfig := ⟨"upload", none, none, 100, 25⟩

def reqNoSource : SimulationRequest := ⟨packA, driveNoSource, simOff⟩

def cyc0 : DriveCycle := ⟨"d0", "ZeroCycle", 0⟩

def driveSynth0 : DriveConfig := ⟨"cycle", some cyc0, none, 100, 25⟩

def reqSynth0 : SimulationRequest := ⟨packA, driveSynth0, simOff⟩

def cyc2 : DriveCycle := ⟨"d2", "TwoCycle", 2⟩

def driveSynth2 : DriveConfig := ⟨"cycle", some cyc2, none, 100, 25⟩

def cyc10 : DriveCycle := ⟨"d10", "TenCycle", 10⟩

def driveSynth10 : DriveConfig := ⟨"cycle", some cyc10, none, 100, 25⟩

/-- The exact output of the engine on `reqDup` (zero noise, zero sine). -/
def reqDupResult : SimResults :=
  ⟨⟨0, 10, 25, 92.3, none⟩,
   [⟨0, 100, 37, 5, 25, 37/200⟩, ⟨0, 0, 0, 5, 0, 0⟩]⟩

/-- The exact output of the engine on `reqInc` (zero noise, zero sine). -/
def reqIncResult : SimResults :=
  ⟨⟨7199/72, 1/720, 25, 92.3, none⟩,
   [⟨0, 100, 37, 10, 25, 37/100⟩, ⟨1, 7199/72, 2627963/72000, 10, 25, 2627963/7200000⟩]⟩

/-- The exact output of the engine on `reqLife` with `randUnit = 1/2`. -/
def reqLifeResult : SimResults :=
  ⟨⟨7199/72, 1/720, 25, 92.3, some (397/4)⟩,
   [⟨0, 100, 37, 10, 25, 37/100⟩, ⟨1, 7199/72, 2627963/72000, 10, 25, 2627963/7200000⟩]⟩

def profileDup : LoadProfile := ⟨[0, 0], [5, 5]⟩

def profileInc : LoadProfile := ⟨[0, 1], [10, 10]⟩

def profileSynth10 : LoadProfile := ⟨[0, 5/2, 5, 15/2, 10], [10, 10, 10, 10, 10]⟩

def profileSynth2 : LoadProfile := ⟨[0], [50]⟩

theorem synthPoints_ten : syntheticPoints 10 = 5 := rfl

theorem toNat_five : (5 : ℤ).toNat = 5 := rfl

theorem toNat_one : (1 : ℤ).toNat = 1 := rfl

theorem synthPoints_two : syntheticPoints 2 = 1 := rfl

theorem run_reqDup : run_simulation nZero sZero 0 reqDup = Except.ok reqDupResult := by
  norm_num [run_simulation, simulate_core, loadProfile, replaySelected, reqDup, driveDup,
    packA, cellA, simOff, stepSimulation, capacityFault, total_capacity_ah, mkPoint, socAt,
    voltageAt, temperatureAt, summaryOf, finalSocOf, maxTempOf, temperatureList, reqDupResult,
    List.range_succ, nZero, sZero]

theorem run_reqInc : run_simulation nZero sZero 0 reqInc = Except.ok reqIncResult := by
  norm_num [run_simulation, simulate_core, loadProfile, replaySelected, reqInc, driveInc,
    packA, cellA, simOff, stepSimulation, capacityFault, total_capacity_ah, mkPoint, socAt,
    voltageAt, temperatureAt, summaryOf, finalSocOf, maxTempOf, temperatureList, reqIncResult,
    List.range_succ, nZero, sZero]

theorem run_reqLife : run_simulation nZero sZero (1/2) reqLife = Except.ok reqLifeResult := by
  norm_num [run_simulation, simulate_core, loadProfile, replaySelected, reqLife, driveInc,
    packA, cellA, simLife, stepSimulation, capacityFault, total_capacity_ah, mkPoint, socAt,
    voltageAt, temperatureAt, summaryOf, finalSocOf, maxTempOf, temperatureList, reqLifeResult,
    List.range_succ, nZero, sZero]

theorem load_dup : loadProfile nZero sZero packA driveDup = Except.ok profileDup := by
  norm_num [loadProfile, replaySelected, driveDup, profileDup]

theorem load_inc : loadProfile nZero sZero packA driveInc = Except.ok profileInc := by
  norm_num [loadProfile, replaySelected, driveInc, profileInc]

theorem load_synth10 : loadProfile nZero sZero packA driveSynth10 = Except.ok profileSynth10 := by
  norm_num [loadProfile, replaySelected, driveSynth10, cyc10, synthPoints_ten,
    toNat_five, linspace, packA, cellA, profileSynth10, List.range_succ,
    List.replicate_succ, nZero, sZero]

theorem load_synth2 : loadProfile nZero sZero packA driveSynth2 = Except.ok profileSynth2 := by
  norm_num [loadProfile, replaySelected, driveSynth2, cyc2, synthPoints_two,
    toNat_one, linspace, packA, cellA, profileSynth2, List.range_succ,
    List.replicate_succ, nZero, sZero]

/-! ## Claims C1, C4, C5, C7: the integration recurrence -/

/-- C1, counterexample. The claim says a step with `dt ≤ 0` is a no-op
that retains the previous state. On `reqDup` the step into index 1 has
`dt = 0`, yet the state of charge at index 1 is 0 while index 0 holds
100: the skipped index keeps the zero fill of the `np.zeros` arrays, it
does not retain the previous values. -/
theorem C1_noop_counterexample :
    run_simulation nZero sZero 0 reqDup = Except.ok reqDupResult ∧
    (reqDupResult.timeSeries.getD 1 default).time -
        (reqDupResult.timeSeries.getD 0 default).time ≤ 0 ∧
    (reqDupResult.timeSeries.getD 1 default).soc ≠
        (reqDupResult.timeSeries.getD 0 default).soc := by
  refine ⟨run_reqDup, ?_, ?_⟩ <;> norm_num [reqDupResult]

/-- C1, amended. For every input profile and every index `i ≥ 1` whose
time step is non-positive, the update is skipped and index i keeps the
zero fill of the freshly allocated arrays: state of charge, voltage and
temperature at index i are all exactly 0 (not the values at `i - 1`). -/
theorem C1_skipped_index_zero_fill (noise : ℕ → ℚ) (sinQ : ℚ → ℚ) (randUnit : ℚ)
    (req : SimulationRequest) (r : SimResults)
    (hrun : run_simulation noise sinQ randUnit req = Except.ok r)
    (i : ℕ) (hi1 : 1 ≤ i) (hi : i < r.timeSeries.length)
    (hdt : (r.timeSeries.getD i default).time -
        (r.timeSeries.getD (i - 1) default).time ≤ 0) :
    (r.timeSeries.getD i default).soc = 0 ∧
    (r.timeSeries.getD i default).voltage = 0 ∧
    (r.timeSeries.getD i default).temperature = 0 := by
  obtain ⟨tps, cur, hload, hlen, hpt⟩ := run_ok_points noise sinQ randUnit req r hrun
  rw [hlen] at hi
  obtain ⟨j, rfl⟩ : ∃ j, i = j + 1 := ⟨i - 1, by omega⟩
  simp only [Nat.add_sub_cancel] at hdt
  rw [hpt (j + 1) hi, hpt j (by omega)] at hdt
  rw [hpt (j + 1) hi]
  simp only [mkPoint] at hdt ⊢
  rw [socAt_succ, voltageAt_succ, temperatureAt_succ]
  rw [if_pos hdt, if_pos hdt, if_pos hdt]
  exact ⟨rfl, rfl, rfl⟩

/-- C1, witness for the amended theorem at `reqDup`, index 1. -/
theorem C1_skipped_index_zero_fill_witness :
    (reqDupResult.timeSeries.getD 1 default).soc = 0 ∧
    (reqDupResult.timeSeries.getD 1 default).voltage = 0 ∧
    (reqDupResult.timeSeries.getD 1 default).temperature = 0 :=
  C1_skipped_index_zero_fill nZero sZero 0 reqDup reqDupResult run_reqDup 1
    (by norm_num) (by norm_num [reqDupResult]) (by norm_num [reqDupResult])

/-- C4, counterexample. The claim says that with the thermal sub-model
disabled the temperature equals ambientTemp at every index. On `reqDup`
(thermal disabled, ambientTemp 25) the skipped index 1 keeps the zero
fill, so its temperature is 0, not 25. -/
theorem C4_thermal_disabled_counterexample :
    reqDup.simulationConfig.thermal.enabled = false ∧
    run_simulation nZero sZero 0 reqDup = Except.ok reqDupResult ∧
    (reqDupResult.timeSeries.getD 1 default).temperature ≠
      reqDup.driveConfig.ambientTemp := by
  refine ⟨rfl, run_reqDup, ?_⟩
  norm_num [reqDupResult, reqDup, driveDup]

/-- C4, amended. With the thermal sub-model disabled, the temperature
equals ambientTemp at index 0 and at every index whose time step is
positive; at a skipped index (non-positive time step) it is 0, the zero
fill of the array. -/
theorem C4_thermal_disabled_temperature (noise : ℕ → ℚ) (sinQ : ℚ → ℚ)
    (randUnit : ℚ) (req : SimulationRequest) (r : SimResults)
    (hth : req.simulationConfig.thermal.enabled = false)
    (hrun : run_simulation noise sinQ randUnit req = Except.ok r)
    (i : ℕ) (hi : i < r.timeSeries.length) :
    (r.timeSeries.getD i default).temperature =
      if i = 0 ∨ 0 < (r.timeSeries.getD i default).time -
          (r.timeSeries.getD (i - 1) default).time
      then req.driveConfig.ambientTemp else 0 := by
  obtain ⟨tps, cur, hload, hlen, hpt⟩ := run_ok_points noise sinQ randUnit req r hrun
  rw [hlen] at hi
  cases i with
  | zero =>
      rw [hpt 0 hi]
      simp [mkPoint, temperatureAt]
  | succ j =>
      simp only [Nat.add_sub_cancel]
      rw [hpt (j + 1) hi, hpt j (by omega)]
      simp only [mkPoint]
      rw [temperatureAt_succ]
      by_cases hdt : tps.getD (j + 1) 0 - tps.getD j 0 ≤ 0
      · rw [if_pos hdt, if_neg]
        rintro (h0 | hpos)
        · exact Nat.succ_ne_zero j h0
        · exact absurd hpos (not_lt.mpr hdt)
      · rw [if_neg hdt, hth]
        rw [if_neg (by exact Bool.false_ne_true)]
        rw [if_pos (Or.inr (not_le.mp hdt))]

/-- C4, witness for the amended theorem at `reqDup`, index 1 (skipped
step, temperature 0). -/
theorem C4_thermal_disabled_temperature_witness :
    (reqDupResult.timeSeries.getD 1 default).temperature =
      if 1 = 0 ∨ 0 < (reqDupResult.timeSeries.getD 1 default).time -
          (reqDupResult.timeSeries.getD (1 - 1) default).time
      then reqDup.driveConfig.ambientTemp else 0 :=
  C4_thermal_disabled_temperature nZero sZero 0 reqDup reqDupResult rfl
    run_reqDup 1 (by norm_num [reqDupResult])

/-- C5: for every successful run with non-negative startingSoc, the state
of charge in the emitted time series is non-negative at every index: the
floor clamp `max(0, ...)` holds at running steps, skipped steps keep the
zero fill, and index 0 holds startingSoc. -/
theorem C5_soc_nonneg (noise : ℕ → ℚ) (sinQ : ℚ → ℚ) (randUnit : ℚ)
    (req : SimulationRequest) (r : SimResults)
    (h0 : 0 ≤ req.driveConfig.startingSoc)
    (hrun : run_simulation noise sinQ randUnit req = Except.ok r)
    (i : ℕ) (hi : i < r.timeSeries.length) :
    0 ≤ (r.timeSeries.getD i default).soc := by
  obtain ⟨tps, cur, hload, hlen, hpt⟩ := run_ok_points noise sinQ randUnit req r hrun
  rw [hlen] at hi
  rw [hpt i hi]
  simp only [mkPoint]
  cases i with
  | zero => exact h0
  | succ j =>
      rw [socAt_succ]
      by_cases hdt : tps.getD (j + 1) 0 - tps.getD j 0 ≤ 0
      · rw [if_pos hdt]
      · rw [if_neg hdt]
        exact le_max_left 0 _

/-- C5, witness at `reqInc`, index 1. -/
theorem C5_soc_nonneg_witness : 0 ≤ (reqIncResult.timeSeries.getD 1 default).soc :=
  C5_soc_nonneg nZero sZero 0 reqInc reqIncResult (by norm_num [reqInc, driveInc])
    run_reqInc 1 (by norm_num [reqIncResult])

/-- C7: at every index `i ≥ 1` whose time step is positive, the state of
charge follows `max(0, previous - (current * dt / 3600) /
total_capacity_ah * 100)` with no upper clamp, and the voltage follows
`(cell_voltage * seriesCount) * (0.9 + 0.1 * soc/100) - current * 0.05`,
where `total_capacity_ah = cell capacity * parallelCount`. -/
theorem C7_step_recurrence (noise : ℕ → ℚ) (sinQ : ℚ → ℚ) (randUnit : ℚ)
    (req : SimulationRequest) (r : SimResults)
    (hrun : run_simulation noise sinQ randUnit req = Except.ok r)
    (i : ℕ) (hi1 : 1 ≤ i) (hi : i < r.timeSeries.length)
    (hdt : 0 < (r.timeSeries.getD i default).time -
        (r.timeSeries.getD (i - 1) default).time) :
    (r.timeSeries.getD i default).soc =
      max 0 ((r.timeSeries.getD (i - 1) default).soc -
        ((r.timeSeries.getD i default).current *
            ((r.timeSeries.getD i default).time -
              (r.timeSeries.getD (i - 1) default).time) / 3600) /
          (req.packConfig.cell.capacity * (req.packConfig.parallelCount : ℚ)) * 100) ∧
    (r.timeSeries.getD i default).voltage =
      req.packConfig.cell.voltage * (req.packConfig.seriesCount : ℚ) *
          (0.9 + 0.1 * ((r.timeSeries.getD i default).soc / 100)) -
        (r.timeSeries.getD i default).current * 0.05 := by
  obtain ⟨tps, cur, hload, hlen, hpt⟩ := run_ok_points noise sinQ randUnit req r hrun
  rw [hlen] at hi
  obtain ⟨j, rfl⟩ : ∃ j, i = j + 1 := ⟨i - 1, by omega⟩
  simp only [Nat.add_sub_cancel] at hdt ⊢
  rw [hpt (j + 1) hi, hpt j (by omega)] at hdt ⊢
  simp only [mkPoint] at hdt ⊢
  have hne : ¬ (tps.getD (j + 1) 0 - tps.getD j 0 ≤ 0) := not_le.mpr hdt
  constructor
  · rw [socAt_succ, if_neg hne, total_capacity_ah]
  · rw [voltageAt_succ, if_neg hne]

/-- C7, witness at `reqInc`, index 1 (positive time step). -/
theorem C7_step_recurrence_witness :
    (reqIncResult.timeSeries.getD 1 default).soc =
      max 0 ((reqIncResult.timeSeries.getD 0 default).soc -
        ((reqIncResult.timeSeries.getD 1 default).current *
            ((reqIncResult.timeSeries.getD 1 default).time -
              (reqIncResult.timeSeries.getD 0 default).time) / 3600) /
          (reqInc.packConfig.cell.capacity * (reqInc.packConfig.parallelCount : ℚ)) * 100) ∧
    (reqIncResult.timeSeries.getD 1 default).voltage =
      reqInc.packConfig.cell.voltage * (reqInc.packConfig.seriesCount : ℚ) *
          (0.9 + 0.1 * ((reqIncResult.timeSeries.getD 1 default).soc / 100)) -
        (reqIncResult.timeSeries.getD 1 default).current * 0.05 :=
  C7_step_recurrence nZero sZero 0 reqInc reqIncResult run_reqInc 1 (by norm_num)
    (by norm_num [reqIncResult]) (by norm_num [reqIncResult])

/-! ## Claims C6 and C9: the load profile provider -/

def rowsDup : List CsvRow := [⟨0, 5, none⟩, ⟨0, 5, none⟩]

theorem synthPoints_zero : syntheticPoints 0 = 0 := rfl

/-- What the synthetic branch of the provider returns when it does not
raise: the linspace time axis and the base + noise + sine current. -/
theorem loadProfile_synthetic (noise : ℕ → ℚ) (sinQ : ℚ → ℚ) (pack : PackConfig)
    (drive : DriveConfig) (cyc : DriveCycle)
    (hnorep : replaySelected drive = false)
    (hcyc : drive.cycle = some cyc)
    (h0 : ¬ syntheticPoints cyc.duration < 0)
    (hd : ¬ cyc.duration = 0) :
    loadProfile noise sinQ pack drive =
      Except.ok ⟨linspace 0 (cyc.duration : ℚ) (syntheticPoints cyc.duration).toNat,
        (List.range (syntheticPoints cyc.duration).toNat).map fun k =>
          pack.totalEnergy * 10 / (cyc.duration : ℚ) + noise k +
            20 * sinQ ((linspace 0 (cyc.duration : ℚ)
              (syntheticPoints cyc.duration).toNat).getD k 0 / 60)⟩ := by
  unfold loadProfile
  rw [hnorep, if_neg (by simp)]
  split
  next cyc2 heq =>
    rw [hcyc] at heq
    injection heq with heq2
    subst heq2
    rw [if_neg h0, if_neg hd]
  next heq =>
    rw [hcyc] at heq
    exact absurd heq (by simp)

/-- C6: in replay mode (type upload with a nonempty csv), `time_points`
and `current_profile` have the same length as the sample list and copy
its timestamp and current fields in supplied order, with no resampling
or reordering. -/
theorem C6_replay_passthrough (noise : ℕ → ℚ) (sinQ : ℚ → ℚ) (pack : PackConfig)
    (drive : DriveConfig) (rows : List CsvRow) (p : LoadProfile) (k : ℕ)
    (hty : drive.type = "upload") (hrows : drive.csvData = some rows) (hne : rows ≠ [])
    (hp : loadProfile noise sinQ pack drive = Except.ok p) (hk : k < rows.length) :
    p.time_points.length = rows.length ∧
    p.current_profile.length = rows.length ∧
    p.time_points.getD k 0 = (rows.getD k ⟨0, 0, none⟩).time_s ∧
    p.current_profile.getD k 0 = (rows.getD k ⟨0, 0, none⟩).current_a := by
  have hrep : replaySelected drive = true := by
    cases rows with
    | nil => exact absurd rfl hne
    | cons a l => simp [replaySelected, hty, hrows]
  unfold loadProfile at hp
  rw [if_pos hrep, hrows] at hp
  injection hp with hp2
  subst hp2
  refine ⟨by simp, by simp, ?_, ?_⟩
  · exact map_getD_of_lt _ _ ⟨0, 0, none⟩ _ k hk
  · exact map_getD_of_lt _ _ ⟨0, 0, none⟩ _ k hk

/-- C6, witness at the two-sample replay input `driveDup`, index 0. -/
theorem C6_replay_passthrough_witness :
    profileDup.time_points.length = rowsDup.length ∧
    profileDup.current_profile.length = rowsDup.length ∧
    profileDup.time_points.getD 0 0 = (rowsDup.getD 0 ⟨0, 0, none⟩).time_s ∧
    profileDup.current_profile.getD 0 0 = (rowsDup.getD 0 ⟨0, 0, none⟩).current_a :=
  C6_replay_passthrough nZero sZero packA driveDup rowsDup profileDup 0
    rfl rfl (by simp [rowsDup]) load_dup (by simp [rowsDup])

/-- C9, counterexample. For duration 2 the computed sample count is
`int(2 / 2) = 1` and `np.linspace(0, 2, 1) = [0]`: the single time point
is 0, so the value `duration = 2` does not occur among the time points,
contradicting the claim that they run from 0 to duration inclusive. -/
theorem C9_synthetic_counterexample :
    loadProfile nZero sZero packA driveSynth2 = Except.ok profileSynth2 ∧
    syntheticPoints cyc2.duration = 1 ∧
    profileSynth2.time_points = [0] ∧
    ¬ ((2 : ℚ) ∈ profileSynth2.time_points) := by
  refine ⟨load_synth2, rfl, rfl, ?_⟩
  norm_num [profileSynth2]

/-- C9, amended. In synthetic mode with duration ≥ 1, the sample count is
floor(duration / 2); the current at every index is base + noise + 20 *
sin(time / 60) with base = totalEnergy * 10 / duration; the time points
start at 0 and, whenever there are at least two of them, are evenly
spaced with last value exactly duration; with exactly one sample the
single time point is 0 and duration is not included. -/
theorem C9_synthetic_profile (noise : ℕ → ℚ) (sinQ : ℚ → ℚ) (pack : PackConfig)
    (drive : DriveConfig) (cyc : DriveCycle) (p : LoadProfile) (k : ℕ)
    (hcyc : drive.cycle = some cyc)
    (hnorep : replaySelected drive = false)
    (hdur : 1 ≤ cyc.duration)
    (hp : loadProfile noise sinQ pack drive = Except.ok p)
    (hk : k < p.time_points.length) :
    p.time_points.length = cyc.duration.toNat / 2 ∧
    p.current_profile.length = p.time_points.length ∧
    p.current_profile.getD k 0 =
      pack.totalEnergy * 10 / (cyc.duration : ℚ) + noise k +
        20 * sinQ (p.time_points.getD k 0 / 60) ∧
    p.time_points.getD 0 0 = 0 ∧
    (2 ≤ p.time_points.length →
      p.time_points.getD (p.time_points.length - 1) 0 = (cyc.duration : ℚ) ∧
      (k + 1 < p.time_points.length →
        p.time_points.getD (k + 1) 0 - p.time_points.getD k 0 =
          (cyc.duration : ℚ) / ((p.time_points.length : ℚ) - 1))) := by
  have h0 : ¬ syntheticPoints cyc.duration < 0 :=
    not_lt.mpr (syntheticPoints_nonneg _ (by omega))
  have hd : ¬ cyc.duration = 0 := by omega
  rw [loadProfile_synthetic noise sinQ pack drive cyc hnorep hcyc h0 hd] at hp
  injection hp with hp2
  subst hp2
  simp only [linspace_length] at hk ⊢
  refine ⟨syntheticPoints_toNat _ (by omega), by simp [linspace_length], ?_, ?_, ?_⟩
  · rw [mapRange_getD _ _ _ _ hk]
  · exact linspace_head _ _ _ (by omega)
  · intro h2
    refine ⟨linspace_last _ _ _ h2, ?_⟩
    intro hk1
    rw [linspace_spacing _ _ _ _ h2 hk1]
    norm_num

/-- C9, witness for the amended theorem: duration 10, five samples, at
index 1. -/
theorem C9_synthetic_profile_witness :
    profileSynth10.time_points.length = cyc10.duration.toNat / 2 ∧
    profileSynth10.current_profile.length = profileSynth10.time_points.length ∧
    profileSynth10.current_profile.getD 1 0 =
      packA.totalEnergy * 10 / (cyc10.duration : ℚ) + nZero 1 +
        20 * sZero (profileSynth10.time_points.getD 1 0 / 60) ∧
    profileSynth10.time_points.getD 0 0 = 0 ∧
    (2 ≤ profileSynth10.time_points.length →
      profileSynth10.time_points.getD (profileSynth10.time_points.length - 1) 0 =
        (cyc10.duration : ℚ) ∧
      (1 + 1 < profileSynth10.time_points.length →
        profileSynth10.time_points.getD (1 + 1) 0 - profileSynth10.time_points.getD 1 0 =
          (cyc10.duration : ℚ) / ((profileSynth10.time_points.length : ℚ) - 1))) :=
  C9_synthetic_profile nZero sZero packA driveSynth10 cyc10 profileSynth10 1
    rfl (by simp [replaySelected, driveSynth10]) (by norm_num [cyc10]) load_synth10
    (by norm_num [profileSynth10])

/-! ## Claims C2, C3: error paths, and C8, C10: summary and determinism -/

/-- C2, counterexample. The claim says a drive cycle with duration 0
makes the engine return an empty time series with finalSoc equal to
startingSoc. In fact the code computes `base_current = totalEnergy * 10 /
duration` and divides by zero: the request raises and is surfaced as an
HTTP 500, no result is returned. -/
theorem C2_duration_zero_counterexample :
    reqSynth0.driveConfig.cycle = some cyc0 ∧ cyc0.duration = 0 ∧
    run_simulation nZero sZero 0 reqSynth0 =
      Except.error (PyError.httpException 500 "float division by zero") := by
  refine ⟨rfl, rfl, ?_⟩
  norm_num [run_simulation, simulate_core, loadProfile, replaySelected, reqSynth0,
    driveSynth0, cyc0, synthPoints_zero, pyErrorMessage]

/-- C2, amended. In synthetic mode with duration 0, the sample count is
computed as `int(0 / 2) = 0`, but the engine then raises
ZeroDivisionError while computing the base current (totalEnergy * 10 /
duration), surfaced by the boundary as an HTTP 500 system fault: no
empty time series and no summary are returned. -/
theorem C2_duration_zero_raises (noise : ℕ → ℚ) (sinQ : ℚ → ℚ) (randUnit : ℚ)
    (req : SimulationRequest) (cyc : DriveCycle)
    (hcyc : req.driveConfig.cycle = some cyc)
    (hnorep : replaySelected req.driveConfig = false)
    (hdur : cyc.duration = 0) :
    syntheticPoints cyc.duration = 0 ∧
    run_simulation noise sinQ randUnit req =
      Except.error (PyError.httpException 500 "float division by zero") := by
  constructor
  · rw [hdur]
    exact synthPoints_zero
  · have hload : loadProfile noise sinQ req.packConfig req.driveConfig =
        Except.error PyError.zeroDivisionError := by
      unfold loadProfile
      rw [hnorep, if_neg (by simp)]
      split
      next cyc2 heq =>
        rw [hcyc] at heq
        injection heq with heq2
        subst heq2
        rw [if_neg (by rw [hdur]; simp [synthPoints_zero]), if_pos hdur]
      next heq =>
        rw [hcyc] at heq
        exact absurd heq (by simp)
    unfold run_simulation simulate_core
    rw [hload]
    rfl

/-- C2, witness for the amended theorem at the concrete request
`reqSynth0`. -/
theorem C2_duration_zero_raises_witness :
    syntheticPoints cyc0.duration = 0 ∧
    run_simulation nZero sZero 0 reqSynth0 =
      Except.error (PyError.httpException 500 "float division by zero") :=
  C2_duration_zero_raises nZero sZero 0 reqSynth0 cyc0 rfl
    (by simp [replaySelected, reqSynth0, driveSynth0]) rfl

/-- C3: when neither csv samples nor a drive cycle is supplied, the core
does raise the client-side HTTPException(400) of main.py line 125, but
the blanket `except Exception` clause at lines 193-195 catches it and
re-raises HTTPException(500, str(e)): the caller observes a system
fault, not a distinct client-side error. No partial result is returned
in either case. -/
theorem C3_invalid_config_surfaced_as_500 :
    simulate_core nZero sZero 0 reqNoSource =
        Except.error (PyError.httpException 400 "Invalid drive cycle configuration.") ∧
    run_simulation nZero sZero 0 reqNoSource =
        Except.error (PyError.httpException 500 "400: Invalid drive cycle configuration.") := by
  constructor
  · norm_num [simulate_core, loadProfile, replaySelected, reqNoSource, driveNoSource]
  · rfl

/-- C8: on every successful run with the random draw in [0, 1), the
summary field stateOfHealth is present if and only if the life toggle is
enabled; when enabled its value is 99.5 minus a draw in [0, 0.5) (namely
`rand() * 0.5`), and when disabled the field is None. -/
theorem C8_state_of_health (noise : ℕ → ℚ) (sinQ : ℚ → ℚ) (randUnit : ℚ)
    (req : SimulationRequest) (r : SimResults)
    (hr0 : 0 ≤ randUnit) (hr1 : randUnit < 1)
    (hrun : run_simulation noise sinQ randUnit req = Except.ok r) :
    (r.summary.stateOfHealth.isSome = true ↔
      req.simulationConfig.life.enabled = true) ∧
    (req.simulationConfig.life.enabled = true →
      r.summary.stateOfHealth = some (99.5 - randUnit * 0.5) ∧
        0 ≤ randUnit * 0.5 ∧ randUnit * 0.5 < 0.5) ∧
    (req.simulationConfig.life.enabled = false →
      r.summary.stateOfHealth = none) := by
  obtain ⟨p, hp, hc, hsum, hts⟩ :=
    core_ok_elim noise sinQ randUnit req r ((run_ok_iff _ _ _ _ _).mp hrun)
  rw [hsum]
  simp only [summaryOf]
  by_cases hl : req.simulationConfig.life.enabled = true
  · rw [if_pos hl]
    refine ⟨by simp [hl], fun _ => ⟨rfl, mul_nonneg hr0 (by norm_num), ?_⟩,
      fun hf => by rw [hf] at hl; exact absurd hl (by simp)⟩
    have hhalf : randUnit * 0.5 < 1 * 0.5 :=
      mul_lt_mul_of_pos_right hr1 (by norm_num)
    linarith
  · rw [if_neg hl]
    have hl2 : req.simulationConfig.life.enabled = false := by
      cases h : req.simulationConfig.life.enabled
      · rfl
      · exact absurd h hl
    exact ⟨by simp [hl2], fun htr => absurd htr hl, fun _ => rfl⟩

/-- C8, witness at `reqLife` (life enabled) with draw 1/2. -/
theorem C8_state_of_health_witness :
    (reqLifeResult.summary.stateOfHealth.isSome = true ↔
      reqLife.simulationConfig.life.enabled = true) ∧
    (reqLife.simulationConfig.life.enabled = true →
      reqLifeResult.summary.stateOfHealth = some (99.5 - (1/2 : ℚ) * 0.5) ∧
        0 ≤ (1/2 : ℚ) * 0.5 ∧ (1/2 : ℚ) * 0.5 < 0.5) ∧
    (reqLife.simulationConfig.life.enabled = false →
      reqLifeResult.summary.stateOfHealth = none) :=
  C8_state_of_health nZero sZero (1/2) reqLife reqLifeResult (by norm_num)
    (by norm_num) run_reqLife

/-- C10: in replay mode with the life sub-model disabled the engine never
consults a random source, so the whole result (time series and summary)
is the same for any two noise functions and any two state-of-health
draws: the run is deterministic in the inputs. -/
theorem C10_replay_deterministic (noise1 noise2 : ℕ → ℚ) (sinQ : ℚ → ℚ)
    (rand1 rand2 : ℚ) (req : SimulationRequest)
    (hrep : replaySelected req.driveConfig = true)
    (hlife : req.simulationConfig.life.enabled = false) :
    run_simulation noise1 sinQ rand1 req = run_simulation noise2 sinQ rand2 req := by
  have hload : loadProfile noise2 sinQ req.packConfig req.driveConfig =
      loadProfile noise1 sinQ req.packConfig req.driveConfig := by
    unfold loadProfile
    rw [if_pos hrep, if_pos hrep]
  have hsum : ∀ tps cur,
      summaryOf req.packConfig req.driveConfig req.simulationConfig rand2 tps cur =
        summaryOf req.packConfig req.driveConfig req.simulationConfig rand1 tps cur := by
    intro tps cur
    unfold summaryOf
    rw [hlife]
    simp
  have hcore : simulate_core noise1 sinQ rand1 req = simulate_core noise2 sinQ rand2 req := by
    unfold simulate_core
    rw [hload]
    split
    · rfl
    · split
      · rfl
      · rw [hsum]
  unfold run_simulation
  rw [hcore]

def nOne : ℕ → ℚ := fun _ => 1

/-- C10, witness: two runs of `reqDup` with different noise functions and
different draws coincide. -/
theorem C10_replay_deterministic_witness :
    run_simulation nZero sZero 0 reqDup = run_simulation nOne sZero (1/2) reqDup :=
  C10_replay_deterministic nZero nOne sZero 0 (1/2) reqDup
    (by simp [replaySelected, reqDup, driveDup]) rfl
